import Mathlib

/-!
Verification of the stall-detector module `src/glommio/src/executor/stall.rs`.

The Rust module implements a per-thread stall watchdog: a policy object
(`StallDetectionHandler`) decides, per task-queue quantum, how much slack
beyond the expected runtime is allowed before a stall is recorded; a
`StallDetector` owns an OS timer, a background signal-delivery thread and a
bounded intake channel; a `StallDetectorGuard` brackets each monitored
quantum, arming the timer on construction and, on destruction, disarming it,
draining the channel and dispatching a `StallDetection` report when frames
were captured.

Shallow embedding conventions used below:

* A Rust `Duration` is a count of nanoseconds (`ℕ`), bounded by `durMax`
  (the value of `Duration::MAX`); `Duration::saturating_add` is `satAdd`,
  `Duration::saturating_sub` is truncated `ℕ` subtraction, `as_millis` and
  `from_millis` are `durationAsMillis` / `durationFromMillis`, and the
  ordering (hence `Ord::max`) is the numeric ordering on nanosecond counts.
* The `f64` arithmetic of `DefaultStallDetectionHandler::high_water_mark`
  (`(max_expected_runtime.as_millis() as f64 * 0.1) as u64`) is modelled
  exactly over `ℕ`: `f64ofNat` is the IEEE-754 round-to-nearest-even
  conversion of an integer to a binary64 value, and `f64MulTenthTruncSat`
  is the exactly-rounded binary64 product with the binary64 literal `0.1`
  (whose exact value is `3602879701896397 / 2 ^ 55`), truncated toward zero
  and saturated to `u64` as Rust's float-to-int `as` cast does.
* Mutable effects of the detector are threaded through an explicit
  `DetectorState`: the `timerfd` state, the intake channel contents (`chan`,
  the frames pushed by the external signal handler and not yet drained,
  oldest first), the dispatched reports, and instrumentation counters for
  the number of `arm` and `disarm` calls made on the timer.
* Fallible OS calls (`TimerFd::new`, `TimerFd::set`, `TimerFd::unset`) are
  given their success/failure outcome as an explicit `Bool` input; a Rust
  panic (`expect`) is `CallResult.aborted`, a returned `Err` is
  `IOResult.err`.
* A stack frame is opaque and modelled as `ℕ`; `Backtrace::from` /
  `resolve` preserve the frame sequence, so a resolved trace is the list of
  drained frames.
-/

namespace StallModel

/-- `Duration::MAX` in nanoseconds: `u64::MAX` seconds plus `999_999_999`
nanoseconds. -/
def durMax : ℕ := 2 ^ 64 * 10 ^ 9 - 1

/-- A whole-millisecond duration, in nanoseconds. -/
def ms (n : ℕ) : ℕ := n * 1000000

/-- `Duration::as_millis`: whole milliseconds, truncating. -/
def durationAsMillis (r : ℕ) : ℕ := r / 1000000

/-- `Duration::from_millis`. -/
def durationFromMillis (z : ℕ) : ℕ := z * 1000000

/-- `Duration::saturating_add`, saturating at `Duration::MAX`. -/
def satAdd (a b : ℕ) : ℕ := min (a + b) durMax

/-- Number of binary digits of `n`, computed with explicit fuel so that the
kernel can evaluate it (256 bits is ample for every value reachable in this
model). -/
def bitlenAux : ℕ → ℕ → ℕ
  | 0, _ => 0
  | fuel + 1, n => if n = 0 then 0 else bitlenAux fuel (n / 2) + 1

/-- Number of binary digits of `n`. -/
def bitlen (n : ℕ) : ℕ := bitlenAux 256 n

/-- Round `m / 2 ^ t` to the nearest integer, ties to even — the rounding
step of IEEE-754 round-to-nearest-even once the number of dropped low bits
`t` is known. -/
def rne (t m : ℕ) : ℕ :=
  if t = 0 then m
  else if 2 ^ (t - 1) < m % 2 ^ t then m / 2 ^ t + 1
  else if m % 2 ^ t < 2 ^ (t - 1) then m / 2 ^ t
  else if m / 2 ^ t % 2 = 0 then m / 2 ^ t else m / 2 ^ t + 1

/-- The integer significand of the binary64 literal `0.1`, whose exact
value is `3602879701896397 / 2 ^ 55`. -/
def tenthK : ℕ := 3602879701896397

/-- The exact value of `m as f64` (round to 53 significant bits, nearest,
ties to even); exact for `m < 2 ^ 53`. -/
def f64ofNat (m : ℕ) : ℕ :=
  if m < 2 ^ 53 then m else rne (bitlen m - 53) m * 2 ^ (bitlen m - 53)

/-- `(x * 0.1f64) as u64` for a nonnegative binary64 value `x` given as a
natural number: the exact product `x * tenthK / 2 ^ 55` is rounded to 53
significant bits (nearest, ties to even), truncated toward zero, and
saturated to `u64::MAX` as Rust float-to-integer casts are. -/
def f64MulTenthTruncSat (x : ℕ) : ℕ :=
  min
    (if bitlen (x * tenthK) - 53 ≤ 55 then
        rne (bitlen (x * tenthK) - 53) (x * tenthK) /
          2 ^ (55 - (bitlen (x * tenthK) - 53))
      else
        rne (bitlen (x * tenthK) - 53) (x * tenthK) *
          2 ^ (bitlen (x * tenthK) - 53 - 55))
    (2 ^ 64 - 1)

/-- `DefaultStallDetectionHandler::high_water_mark`:
`Some(Duration::from_millis((max_expected_runtime.as_millis() as f64 * 0.1)
as u64).max(Duration::from_millis(10)))`. -/
def defaultHighWaterMark (r : ℕ) : Option ℕ :=
  some
    (max (durationFromMillis (f64MulTenthTruncSat (f64ofNat (durationAsMillis r))))
      (ms 10))

/-- Modelled from the spec: the exact threshold the spec's sentence
"high_water_mark = max(10% of R, 10ms)" describes, with 10% taken exactly
(in nanoseconds). Used only to compare the spec's claimed value with the
code's value. -/
def specExactHighWaterMark (r : ℕ) : ℕ := max (r / 10) (ms 10)

/-- Raw intake-channel frame (opaque `backtrace::BacktraceFrame`). -/
abbrev Frame := ℕ

/-- The `timerfd` state: unset, armed one-shot, or periodic. -/
inductive TimerState where
  | unset : TimerState
  | oneShot (threshold : ℕ) : TimerState
  | interval (period : ℕ) : TimerState
deriving DecidableEq

/-- The `StallDetection` report handed to the policy's `stall` callback. -/
structure StallDetection where
  executor : ℕ
  queueHandle : ℕ
  queueName : String
  trace : List Frame
  budget : ℕ
  overage : ℕ
deriving DecidableEq

/-- The mutable/observable state owned by one `StallDetector`: the timer,
the intake channel contents (frames pushed by the signal handler and not
yet drained, oldest first), the reports dispatched to the policy so far,
and counters for how many `arm` / `disarm` calls were made. -/
structure DetectorState where
  timer : TimerState
  armCalls : ℕ
  disarmCalls : ℕ
  chan : List Frame
  reports : List StallDetection
deriving DecidableEq

/-- The immutable fields of a `StallDetector`: the executor id, the
identity of the monitored thread captured via `pthread_self` at
construction, the policy's signal number, and the policy's
`high_water_mark` function. -/
structure StallDetector where
  id : ℕ
  tid : ℕ
  sig : ℕ
  hwm : ℕ → ℕ → Option ℕ

/-- A `StallDetectorGuard`: queue identity and name, quantum start instant
(nanoseconds on the monotonic clock) and the armed threshold. -/
structure StallDetectorGuard where
  queueHandle : ℕ
  queueName : String
  start : ℕ
  threshold : ℕ
deriving DecidableEq

/-- Result of a call that can end in a Rust panic (`expect`). -/
inductive CallResult (α : Type) where
  | aborted : CallResult α
  | ok (value : α) : CallResult α
deriving DecidableEq

/-- Result of a call that can return a Rust `Err` to the caller. -/
inductive IOResult (α : Type) where
  | err : IOResult α
  | ok (value : α) : IOResult α

/-- `StallDetector::arm`: `timer.set(Expiration::OneShot(threshold), ..)`.
The success of the underlying `timerfd` syscall is the `ok` input; the call
is counted either way, the timer state changes only on success, and the
`nix::Result` is the returned `Bool`. -/
def armTimer (ok : Bool) (threshold : ℕ) (s : DetectorState) : DetectorState × Bool :=
  ({ s with armCalls := s.armCalls + 1,
            timer := if ok then TimerState.oneShot threshold else s.timer }, ok)

/-- `StallDetector::disarm`: `timer.unset()`; same conventions as
`armTimer`. -/
def disarmTimer (ok : Bool) (s : DetectorState) : DetectorState × Bool :=
  ({ s with disarmCalls := s.disarmCalls + 1,
            timer := if ok then TimerState.unset else s.timer }, ok)

/-- Default queue name used in concrete scenarios. -/
def qname0 : String := "q"

/-- `StallDetectorGuard::new`: arms the timer for `threshold`; on arming
failure the source panics (`expect("Unable to arm stall detector, giving
up")`) instead of returning, which is `CallResult.aborted` here. -/
def stallDetectorGuardNew (armOk : Bool) (queueHandle : ℕ) (queueName : String)
    (start threshold : ℕ) (s : DetectorState) :
    CallResult (StallDetectorGuard × DetectorState) :=
  let rs := armTimer armOk threshold s
  if rs.2 then
    CallResult.ok
      ({ queueHandle := queueHandle, queueName := queueName, start := start,
         threshold := threshold }, rs.1)
  else CallResult.aborted

/-- `StallDetector::enter_task_queue`: asks the policy for the high-water
mark; `None` means no guard and no side effect; `Some hwm` builds a guard
with threshold `max_expected_runtime.saturating_add(hwm)` (the construction
panic propagates through the outer `expect`). -/
def enterTaskQueue (armOk : Bool) (det : StallDetector) (queueHandle : ℕ)
    (queueName : String) (start maxExpectedRuntime : ℕ) (s : DetectorState) :
    CallResult (Option StallDetectorGuard × DetectorState) :=
  match det.hwm queueHandle maxExpectedRuntime with
  | none => CallResult.ok (none, s)
  | some hwm =>
    match stallDetectorGuardNew armOk queueHandle queueName start
        (satAdd maxExpectedRuntime hwm) s with
    | CallResult.ok (g, s1) => CallResult.ok (some g, s1)
    | CallResult.aborted => CallResult.aborted

/-- `Drop for StallDetectorGuard`: `let _ = disarm()` (result discarded),
drain the intake channel completely and non-blockingly, and if any frames
were collected dispatch exactly one report with `budget = threshold` and
`overage = elapsed.saturating_sub(threshold)` where `elapsed = now - start`.
The second component is the list of log lines emitted directly by the drop
body itself — the source contains no logging statement there. -/
def stallDetectorGuardDrop (disarmOk : Bool) (now : ℕ) (det : StallDetector)
    (g : StallDetectorGuard) (s : DetectorState) : DetectorState × List String :=
  let s1 := (disarmTimer disarmOk s).1
  let frames := s1.chan
  let s2 := { s1 with chan := [] }
  if frames.isEmpty then (s2, [])
  else
    ({ s2 with reports := s2.reports ++
        [{ executor := det.id, queueHandle := g.queueHandle,
           queueName := g.queueName, trace := frames, budget := g.threshold,
           overage := (now - g.start) - g.threshold }] }, [])

/-- Side effects of `StallDetector::new`, in source order: create the
`timerfd`, capture the monitored thread id, spawn the background thread,
create the bounded intake channel. -/
inductive NewEffect where
  | createTimer : NewEffect
  | captureTid : NewEffect
  | spawnThread : NewEffect
  | createChannel : NewEffect
deriving DecidableEq

/-- The freshly initialised `DetectorState` of a new detector. -/
def initialState : DetectorState :=
  { timer := TimerState.unset, armCalls := 0, disarmCalls := 0, chan := [],
    reports := [] }

/-- `StallDetector::new`: `TimerFd::new` first (its failure is returned to
the caller as `Err` via `?` before anything else happens), then the thread
id capture, thread spawn and channel creation. The effect list records
which of those steps ran. -/
def stallDetectorNew (timerOk : Bool) (executorId monitoredTid sigNum : ℕ)
    (hwmF : ℕ → ℕ → Option ℕ) :
    IOResult (StallDetector × DetectorState) × List NewEffect :=
  if timerOk then
    (IOResult.ok
      ({ id := executorId, tid := monitoredTid, sig := sigNum, hwm := hwmF },
        initialState),
     [NewEffect.createTimer, NewEffect.captureTid, NewEffect.spawnThread,
      NewEffect.createChannel])
  else (IOResult.err, [NewEffect.createTimer])

/-- The background thread's loop body, one entry per successful timer wake:
`flags` is the value of the termination flag observed at each wake, in
order; the result is the list of `(thread, signal)` deliveries performed.
On a wake with the flag set the thread returns at once, delivering nothing
further; otherwise it delivers the policy signal to the captured thread and
loops. -/
def watchdogLoop (tid sig : ℕ) : List Bool → List (ℕ × ℕ)
  | [] => []
  | t :: rest => if t then [] else (tid, sig) :: watchdogLoop tid sig rest

/-- A detector using `DefaultStallDetectionHandler` (signal `SIGUSR1 = 10`,
the default high-water mark, queue handle ignored), executor id 0,
monitored thread id 0. -/
def defaultDetector : StallDetector :=
  { id := 0, tid := 0, sig := 10, hwm := fun _ r => defaultHighWaterMark r }

/-- A detector whose policy disables monitoring for every quantum. -/
def noneDetector : StallDetector :=
  { id := 0, tid := 0, sig := 10, hwm := fun _ _ => none }

/-! ### Arithmetic facts about the binary64 model -/

theorem bitlenAux_zero : ∀ fuel : ℕ, bitlenAux fuel 0 = 0
  | 0 => rfl
  | _ + 1 => rfl

theorem bitlenAux_spec : ∀ fuel n : ℕ, 0 < n → n < 2 ^ fuel →
    2 ^ (bitlenAux fuel n - 1) ≤ n ∧ n < 2 ^ bitlenAux fuel n := by
  intro fuel
  induction fuel with
  | zero =>
    intro n hpos hlt
    simp only [pow_zero] at hlt
    omega
  | succ f ih =>
    intro n hpos hlt
    have hn : ¬n = 0 := by omega
    rw [bitlenAux, if_neg hn]
    by_cases h2 : n / 2 = 0
    · have hn1 : n = 1 := by omega
      subst hn1
      simp [bitlenAux_zero]
    · have hdiv : n / 2 < 2 ^ f := by
        rw [pow_succ] at hlt
        omega
      obtain ⟨l1, l2⟩ := ih (n / 2) (Nat.pos_of_ne_zero h2) hdiv
      have hb1 : 1 ≤ bitlenAux f (n / 2) := by
        by_contra hb
        have hb0 : bitlenAux f (n / 2) = 0 := by omega
        rw [hb0, pow_zero] at l2
        omega
      constructor
      · have e1 : 2 ^ (bitlenAux f (n / 2) + 1 - 1) =
            2 ^ (bitlenAux f (n / 2) - 1) * 2 := by
          rw [← pow_succ]
          congr 1
          omega
        omega
      · have e2 : 2 ^ (bitlenAux f (n / 2) + 1) = 2 ^ bitlenAux f (n / 2) * 2 := by
          rw [pow_succ]
        omega

theorem bitlen_spec (n : ℕ) (hpos : 0 < n) (hlt : n < 2 ^ 256) :
    2 ^ (bitlen n - 1) ≤ n ∧ n < 2 ^ bitlen n :=
  bitlenAux_spec 256 n hpos hlt

/-- Rounding up at the tie or above adds at most half of the dropped scale. -/
theorem rne_mul_le (t m : ℕ) : rne t m * 2 ^ t ≤ m + 2 ^ (t - 1) := by
  rw [rne]
  by_cases ht : t = 0
  · subst ht
    simp
  · have h2t : 2 ^ t = 2 ^ (t - 1) * 2 := by
      rw [← pow_succ]
      congr 1
      omega
    have hdm : m / 2 ^ t * 2 ^ t + m % 2 ^ t = m := Nat.div_add_mod' m (2 ^ t)
    have hmod : m % 2 ^ t < 2 ^ t := Nat.mod_lt m (pow_pos (by norm_num) t)
    rw [if_neg ht]
    split_ifs <;> (try rw [add_mul, one_mul]) <;> omega

/-- Rounding removes at most half of the dropped scale. -/
theorem le_rne_mul (t m : ℕ) : m ≤ rne t m * 2 ^ t + 2 ^ (t - 1) := by
  rw [rne]
  by_cases ht : t = 0
  · subst ht
    simp
  · have h2t : 2 ^ t = 2 ^ (t - 1) * 2 := by
      rw [← pow_succ]
      congr 1
      omega
    have hdm : m / 2 ^ t * 2 ^ t + m % 2 ^ t = m := Nat.div_add_mod' m (2 ^ t)
    have hmod : m % 2 ^ t < 2 ^ t := Nat.mod_lt m (pow_pos (by norm_num) t)
    rw [if_neg ht]
    split_ifs <;> (try rw [add_mul, one_mul]) <;> omega

/-- Round-to-nearest never rounds below the floor. -/
theorem div_le_rne (t m : ℕ) : m / 2 ^ t ≤ rne t m := by
  by_cases ht : t = 0
  · rw [rne, if_pos ht, ht]
    simp
  · rw [rne, if_neg ht]
    split_ifs <;> omega

theorem f64ofNat_of_lt (m : ℕ) (h : m < 2 ^ 53) : f64ofNat m = m := by
  rw [f64ofNat, if_pos h]

/-- The heart of the default-policy arithmetic: for every whole-millisecond
count `m` below `2 ^ 50`, the exactly-rounded binary64 computation
`(m as f64 * 0.1) as u64` equals the truncated integer quotient `m / 10`. -/
theorem f64MulTenthTruncSat_eq_div_ten (m : ℕ) (hm : m < 2 ^ 50) :
    f64MulTenthTruncSat m = m / 10 := by
  rcases Nat.eq_zero_or_pos m with h0 | hpos
  · subst h0
    decide
  · have hm' : m < 1125899906842624 := by
      have : (2 : ℕ) ^ 50 = 1125899906842624 := by norm_num
      omega
    rw [f64MulTenthTruncSat]
    have hKpos : 0 < tenthK := by norm_num [tenthK]
    have hPpos : 0 < m * tenthK := Nat.mul_pos hpos hKpos
    have hPlt : m * tenthK < 2 ^ 102 := by
      have hK : tenthK < 2 ^ 52 := by norm_num [tenthK]
      calc m * tenthK < 2 ^ 50 * 2 ^ 52 :=
            Nat.mul_lt_mul_of_lt_of_le hm (le_of_lt hK) (by norm_num)
        _ = 2 ^ 102 := by norm_num
    obtain ⟨hLlow, _⟩ := bitlen_spec (m * tenthK) hPpos
      (lt_trans hPlt (by norm_num))
    have hL102 : bitlen (m * tenthK) ≤ 102 := by
      by_contra hc
      push_neg at hc
      have h1 : (2 : ℕ) ^ 102 ≤ 2 ^ (bitlen (m * tenthK) - 1) :=
        Nat.pow_le_pow_right (by norm_num) (by omega)
      exact absurd hPlt (not_lt.mpr (le_trans h1 hLlow))
    set t := bitlen (m * tenthK) - 53 with ht
    have ht49 : t ≤ 49 := by omega
    rw [if_pos (by omega : t ≤ 55)]
    set P := m * tenthK with hP
    set Q := rne t P with hQ
    set d := m / 10 with hd
    have hm10 : m ≤ 10 * d + 9 := by omega
    have h10d : 10 * d ≤ m := by omega
    have hKten : 10 * tenthK = 2 ^ 55 + 2 := by norm_num [tenthK]
    have h10P : 10 * P = m * 2 ^ 55 + 2 * m := by
      calc 10 * P = m * (10 * tenthK) := by ring
        _ = m * (2 ^ 55 + 2) := by rw [hKten]
        _ = m * 2 ^ 55 + 2 * m := by ring
    have hsplit : (2 : ℕ) ^ (55 - t) * 2 ^ t = 2 ^ 55 := by
      rw [← pow_add]
      congr 1
      omega
    have hpow_t : (0 : ℕ) < 2 ^ t := Nat.pos_pow_of_pos t (by norm_num)
    have hpow_55t : (0 : ℕ) < 2 ^ (55 - t) := Nat.pos_pow_of_pos _ (by norm_num)
    -- lower bound: d * 2 ^ 55 ≤ P, hence d ≤ Q / 2 ^ (55 - t)
    have hlow : d * 2 ^ 55 ≤ P := by
      have h1 : d * (2 ^ 55 + 2) ≤ m * tenthK := by
        calc d * (2 ^ 55 + 2) = 10 * d * tenthK := by rw [← hKten]; ring
          _ ≤ m * tenthK := Nat.mul_le_mul_right _ h10d
      calc d * 2 ^ 55 ≤ d * (2 ^ 55 + 2) := Nat.mul_le_mul_left _ (by omega)
        _ ≤ m * tenthK := h1
        _ = P := by rw [hP]
    have hzge : d ≤ Q / 2 ^ (55 - t) := by
      rw [Nat.le_div_iff_mul_le hpow_55t]
      have h2 : d * 2 ^ (55 - t) ≤ P / 2 ^ t := by
        rw [Nat.le_div_iff_mul_le hpow_t, mul_assoc, hsplit]
        exact hlow
      exact le_trans h2 (div_le_rne t P)
    -- upper bound: Q * 2 ^ t < (d + 1) * 2 ^ 55, hence Q / 2 ^ (55 - t) ≤ d
    have hup : Q * 2 ^ t ≤ P + 2 ^ 48 := by
      have h1 : (2 : ℕ) ^ (t - 1) ≤ 2 ^ 48 :=
        Nat.pow_le_pow_right (by norm_num) (by omega)
      have h2 := rne_mul_le t P
      rw [← hQ] at h2
      omega
    have hq : Q * 2 ^ t < (d + 1) * 2 ^ 55 := by
      have h1 : 10 * (Q * 2 ^ t) ≤ 10 * P + 10 * 2 ^ 48 := by omega
      have h2 : m * 2 ^ 55 ≤ (10 * d + 9) * 2 ^ 55 :=
        Nat.mul_le_mul_right _ hm10
      have h3 : 10 * (Q * 2 ^ t) < 10 * ((d + 1) * 2 ^ 55) := by
        have e1 : 10 * ((d + 1) * 2 ^ 55) = (10 * d + 9) * 2 ^ 55 + 2 ^ 55 := by
          ring
        have h4 : 2 * m + 10 * 2 ^ 48 < 2 ^ 55 := by
          have : (2 : ℕ) ^ 48 = 281474976710656 := by norm_num
          have : (2 : ℕ) ^ 55 = 36028797018963968 := by norm_num
          omega
        omega
      omega
    have hzle : Q / 2 ^ (55 - t) ≤ d := by
      have h1 : Q < (d + 1) * 2 ^ (55 - t) := by
        by_contra hc
        push_neg at hc
        have h2 : (d + 1) * 2 ^ (55 - t) * 2 ^ t ≤ Q * 2 ^ t :=
          Nat.mul_le_mul_right _ hc
        rw [mul_assoc, hsplit] at h2
        exact absurd hq (not_lt.mpr h2)
      have h3 : Q / 2 ^ (55 - t) < d + 1 := Nat.div_lt_of_lt_mul (by
        rw [mul_comm] at h1
        exact h1)
      omega
    have hz : Q / 2 ^ (55 - t) = d := le_antisymm hzle hzge
    rw [hz]
    have hd64 : d ≤ 2 ^ 64 - 1 := by
      have h1 : d ≤ m := Nat.div_le_self m 10
      have : (2 : ℕ) ^ 64 - 1 = 18446744073709551615 := by norm_num
      omega
    exact min_eq_left hd64

/-! ### Claims -/

/-- Claim C1, corrected. The original claim — that the default policy's
`high_water_mark(queue, R)` equals `max(10% of R, 10ms)` exactly for every
`R`, including `R` whose 10% is not a whole number of milliseconds — is
false: see `C1_counterexample`. What the code computes, proved here for
every duration `r` whose whole-millisecond count `m = r / 10 ^ 6` is below
`2 ^ 50` (about 35,700 years), is
`max(⌊m / 10⌋ milliseconds, 10 milliseconds)`: the 10% is taken of `R`
truncated to whole milliseconds and is itself truncated to a whole
millisecond before the 10ms floor is applied. -/
theorem C1_default_high_water_mark (r : ℕ) (h : durationAsMillis r < 2 ^ 50) :
    defaultHighWaterMark r =
      some (max (durationFromMillis (durationAsMillis r / 10)) (ms 10)) := by
  rw [defaultHighWaterMark,
    f64ofNat_of_lt (durationAsMillis r) (lt_trans h (by norm_num)),
    f64MulTenthTruncSat_eq_div_ten (durationAsMillis r) h]

/-- Witness for C1's amended theorem at `R = 105` milliseconds. -/
theorem C1_witness :
    durationAsMillis (ms 105) < 2 ^ 50 ∧
      defaultHighWaterMark (ms 105) =
        some (max (durationFromMillis (durationAsMillis (ms 105) / 10)) (ms 10)) :=
  ⟨by decide, C1_default_high_water_mark (ms 105) (by decide)⟩

/-- Counterexample to Claim C1 as stated: at `R = 105` milliseconds, exact
`max(10% of R, 10ms)` is `10.5` milliseconds (`10500000` nanoseconds), but
the default policy returns exactly `10` milliseconds. -/
theorem C1_counterexample :
    defaultHighWaterMark (ms 105) = some (ms 10) ∧
      specExactHighWaterMark (ms 105) = 10500000 ∧
      defaultHighWaterMark (ms 105) ≠ some (specExactHighWaterMark (ms 105)) := by
  refine ⟨by decide, by decide, by decide⟩

/-- Claim C2, corrected. With the default policy and
`expected_runtime = 50` milliseconds, the high-water mark is
`max(5ms, 10ms) = 10ms` (the 10ms floor wins, not the 5ms value the
original claim assumed), so the armed threshold — and the report's budget —
is `60` milliseconds, and a quantum observed `100` milliseconds after its
start with captured frames produces one report with
`overage = 100ms - 60ms = 40` milliseconds. -/
theorem C2_end_to_end :
    enterTaskQueue true defaultDetector 0 qname0 0 (ms 50) initialState =
      CallResult.ok
        (some { queueHandle := 0, queueName := qname0, start := 0,
                threshold := ms 60 },
         { timer := TimerState.oneShot (ms 60), armCalls := 1, disarmCalls := 0,
           chan := [], reports := [] }) ∧
      (stallDetectorGuardDrop true (ms 100) defaultDetector
          { queueHandle := 0, queueName := qname0, start := 0, threshold := ms 60 }
          { timer := TimerState.oneShot (ms 60), armCalls := 1, disarmCalls := 0,
            chan := [7], reports := [] }).1.reports =
        [{ executor := 0, queueHandle := 0, queueName := qname0, trace := [7],
           budget := ms 60, overage := ms 40 }] := by
  refine ⟨by decide, by decide⟩

/-- Counterexample to Claim C2 as stated: with `expected_runtime = 50`
milliseconds and the default policy, the armed threshold is `60`
milliseconds, not `55`, and the overage of a quantum that ran `100`
milliseconds is `40` milliseconds, not `45`. -/
theorem C2_counterexample :
    (enterTaskQueue true defaultDetector 0 qname0 0 (ms 50) initialState =
        CallResult.ok
          (some { queueHandle := 0, queueName := qname0, start := 0,
                  threshold := ms 60 },
           { timer := TimerState.oneShot (ms 60), armCalls := 1, disarmCalls := 0,
             chan := [], reports := [] }) ∧
      ms 60 ≠ ms 55) ∧
      (stallDetectorGuardDrop true (ms 100) defaultDetector
            { queueHandle := 0, queueName := qname0, start := 0,
              threshold := ms 60 }
            { timer := TimerState.oneShot (ms 60), armCalls := 1,
              disarmCalls := 0, chan := [7], reports := [] }).1.reports =
          [{ executor := 0, queueHandle := 0, queueName := qname0, trace := [7],
             budget := ms 60, overage := ms 40 }] ∧
        ms 40 ≠ ms 45 := by
  refine ⟨⟨by decide, by decide⟩, by decide, by decide⟩

/-- Claim C3, confirmed. On guard destruction a report is dispatched iff
the non-blocking drain collected at least one frame; when it did, exactly
one report is appended, its budget is the armed threshold and its overage
is `elapsed - threshold` with truncated (floored-at-zero) subtraction. -/
theorem C3_drop_report_iff_frames (disarmOk : Bool) (now : ℕ)
    (det : StallDetector) (g : StallDetectorGuard) (s : DetectorState) :
    (stallDetectorGuardDrop disarmOk now det g s).1.reports =
      (if s.chan.isEmpty then s.reports
       else s.reports ++
         [{ executor := det.id, queueHandle := g.queueHandle,
            queueName := g.queueName, trace := s.chan, budget := g.threshold,
            overage := (now - g.start) - g.threshold }]) := by
  rw [stallDetectorGuardDrop, disarmTimer]
  cases s.chan <;> simp

/-- Claim C4, confirmed. `enter_task_queue` returns no guard and leaves the
detector state untouched (no arm call, no disarm call, no possible report)
exactly when the policy's `high_water_mark` returns `none`; when it returns
a slack value and the timer arming succeeds, a guard is produced. -/
theorem C4_enter_none_iff (armOk : Bool) (det : StallDetector)
    (queueHandle : ℕ) (queueName : String) (start R : ℕ) (s : DetectorState) :
    ((enterTaskQueue armOk det queueHandle queueName start R s =
        CallResult.ok (none, s)) ↔ det.hwm queueHandle R = none) ∧
      (∀ h, det.hwm queueHandle R = some h → armOk = true →
        enterTaskQueue armOk det queueHandle queueName start R s =
          CallResult.ok
            (some { queueHandle := queueHandle, queueName := queueName,
                    start := start, threshold := satAdd R h },
             (armTimer true (satAdd R h) s).1)) := by
  constructor
  · cases hh : det.hwm queueHandle R with
    | none => simp [enterTaskQueue, hh]
    | some h =>
      simp only [enterTaskQueue, hh]
      cases armOk <;> simp [stallDetectorGuardNew, armTimer]
  · intro h hh ha
    subst ha
    simp [enterTaskQueue, hh, stallDetectorGuardNew, armTimer]

/-- Witness for C4 at a policy that always disables monitoring. -/
theorem C4_witness :
    enterTaskQueue true noneDetector 0 qname0 0 (ms 50) initialState =
      CallResult.ok (none, initialState) :=
  ((C4_enter_none_iff true noneDetector 0 qname0 0 (ms 50) initialState).1).mpr
    rfl

/-- Claim C5, confirmed. When the policy supplies a high-water mark, the
armed threshold of the produced guard is
`expected_runtime.saturating_add(high_water_mark)` — `min (R + h) durMax` —
so it never exceeds the maximum representable duration, and the timer is
armed at exactly that threshold. -/
theorem C5_threshold_saturating (det : StallDetector) (queueHandle : ℕ)
    (queueName : String) (start R h : ℕ) (s : DetectorState)
    (hh : det.hwm queueHandle R = some h) :
    ∃ g s1,
      enterTaskQueue true det queueHandle queueName start R s =
          CallResult.ok (some g, s1) ∧
        g.threshold = min (R + h) durMax ∧
        g.threshold ≤ durMax ∧
        s1.timer = TimerState.oneShot g.threshold := by
  refine ⟨{ queueHandle := queueHandle, queueName := queueName, start := start,
            threshold := satAdd R h },
    (armTimer true (satAdd R h) s).1, ?_, ?_, ?_, ?_⟩
  · simp [enterTaskQueue, hh, stallDetectorGuardNew, armTimer]
  · rfl
  · exact min_le_right _ _
  · simp [armTimer]

/-- Witness for C5: default policy, `R = 50` milliseconds,
`high_water_mark = 10` milliseconds. -/
theorem C5_witness :
    ∃ g s1,
      enterTaskQueue true defaultDetector 0 qname0 0 (ms 50) initialState =
          CallResult.ok (some g, s1) ∧
        g.threshold = min (ms 50 + ms 10) durMax ∧
        g.threshold ≤ durMax ∧
        s1.timer = TimerState.oneShot g.threshold :=
  C5_threshold_saturating defaultDetector 0 qname0 0 (ms 50) (ms 10)
    initialState (by decide)

/-- Claim C6, confirmed. Guard construction arms the timer before
returning: on success the returned state has the one-shot timer set at the
guard's threshold and exactly one more arm call; on arming failure the
construction aborts (the source panics) instead of returning a guard. Guard
destruction performs exactly one disarm call; in the model the destructor
is a single total function, so every exit path of the quantum runs it
exactly once. -/
theorem C6_arm_disarm_discipline (queueHandle : ℕ) (queueName : String)
    (start threshold : ℕ) (s : DetectorState) :
    (∀ g s1,
        stallDetectorGuardNew true queueHandle queueName start threshold s =
          CallResult.ok (g, s1) →
        s1.timer = TimerState.oneShot threshold ∧
          s1.armCalls = s.armCalls + 1 ∧ g.threshold = threshold) ∧
      stallDetectorGuardNew false queueHandle queueName start threshold s =
        CallResult.aborted ∧
      (∀ (disarmOk : Bool) (now : ℕ) (det : StallDetector)
          (g : StallDetectorGuard),
        (stallDetectorGuardDrop disarmOk now det g s).1.disarmCalls =
          s.disarmCalls + 1) := by
  refine ⟨?_, rfl, ?_⟩
  · intro g s1 hgs
    rw [stallDetectorGuardNew] at hgs
    simp only [armTimer, if_pos] at hgs
    cases hgs
    simp [armTimer]
  · intro disarmOk now det g
    rw [stallDetectorGuardDrop, disarmTimer]
    cases s.chan <;> simp

/-- Witness for C6 at a concrete guard construction and destruction. -/
theorem C6_witness :
    ({ timer := TimerState.oneShot (ms 60), armCalls := 1, disarmCalls := 0,
       chan := [], reports := [] } : DetectorState).timer =
        TimerState.oneShot (ms 60) ∧
      stallDetectorGuardNew false 0 qname0 0 (ms 60) initialState =
        CallResult.aborted ∧
      (stallDetectorGuardDrop true (ms 100) defaultDetector
          { queueHandle := 0, queueName := qname0, start := 0,
            threshold := ms 60 } initialState).1.disarmCalls =
        initialState.disarmCalls + 1 :=
  ⟨((C6_arm_disarm_discipline 0 qname0 0 (ms 60) initialState).1
      { queueHandle := 0, queueName := qname0, start := 0, threshold := ms 60 }
      { timer := TimerState.oneShot (ms 60), armCalls := 1, disarmCalls := 0,
        chan := [], reports := [] } rfl).1,
   (C6_arm_disarm_discipline 0 qname0 0 (ms 60) initialState).2.1,
   (C6_arm_disarm_discipline 0 qname0 0 (ms 60) initialState).2.2 true (ms 100)
     defaultDetector
     { queueHandle := 0, queueName := qname0, start := 0, threshold := ms 60 }⟩

/-- Claim C7, corrected. A disarm failure during guard destruction is
non-fatal and teardown (drain and possible report) proceeds exactly as on a
successful disarm — but the failure is not logged: the source discards the
`nix::Result` with `let _ = self.detector.disarm();` and the drop body
contains no logging statement, so the emitted log-line list is empty (see
`C7_counterexample`); the only trace of the failure is that the timer state
is left unchanged. -/
theorem C7_disarm_failure_nonfatal (now : ℕ) (det : StallDetector)
    (g : StallDetectorGuard) (s : DetectorState) :
    (stallDetectorGuardDrop false now det g s).2 = [] ∧
      (stallDetectorGuardDrop false now det g s).1.chan = [] ∧
      (stallDetectorGuardDrop false now det g s).1.reports =
        (stallDetectorGuardDrop true now det g s).1.reports ∧
      (stallDetectorGuardDrop false now det g s).1.timer = s.timer := by
  rw [stallDetectorGuardDrop, stallDetectorGuardDrop, disarmTimer, disarmTimer]
  cases s.chan <;> simp

/-- Counterexample to Claim C7 as stated: with a failing disarm and one
captured frame, teardown proceeds (the report is dispatched), yet no log
line about the failure is emitted — the claim's "it is logged" is false. -/
theorem C7_counterexample :
    (stallDetectorGuardDrop false (ms 100) defaultDetector
        { queueHandle := 0, queueName := qname0, start := 0, threshold := ms 60 }
        { timer := TimerState.oneShot (ms 60), armCalls := 1, disarmCalls := 0,
          chan := [5], reports := [] }).2 = [] ∧
      ((stallDetectorGuardDrop false (ms 100) defaultDetector
          { queueHandle := 0, queueName := qname0, start := 0,
            threshold := ms 60 }
          { timer := TimerState.oneShot (ms 60), armCalls := 1, disarmCalls := 0,
            chan := [5], reports := [] }).1.reports).length = 1 := by
  refine ⟨by decide, by decide⟩

/-- Claim C8, confirmed. If the OS monotonic timer cannot be created,
`StallDetector::new` returns an `Err` to the caller, and no partial
watchdog is left: neither the background thread spawn nor the channel
creation happens. -/
theorem C8_new_timer_failure (executorId monitoredTid sigNum : ℕ)
    (hwmF : ℕ → ℕ → Option ℕ) :
    (stallDetectorNew false executorId monitoredTid sigNum hwmF).1 =
        IOResult.err ∧
      NewEffect.spawnThread ∉
        (stallDetectorNew false executorId monitoredTid sigNum hwmF).2 ∧
      NewEffect.createChannel ∉
        (stallDetectorNew false executorId monitoredTid sigNum hwmF).2 := by
  refine ⟨rfl, ?_, ?_⟩ <;> simp [stallDetectorNew]

/-- Every signal delivered by the background loop goes to the captured
monitored thread with the policy's signal number, and deliveries stop at
the first wake that observes the termination flag. -/
theorem watchdogLoop_eq_replicate (tid sig : ℕ) (flags : List Bool) :
    watchdogLoop tid sig flags =
      List.replicate (flags.takeWhile (fun b => !b)).length (tid, sig) := by
  induction flags with
  | nil => rfl
  | cons f rest ih =>
    cases f <;> simp [watchdogLoop, List.takeWhile, ih, List.replicate]

/-- Claim C9, confirmed. For a detector built by `StallDetector::new`, the
background thread delivers, at each timer wake that observes the
termination flag unset, exactly the policy signal to the monitored thread
captured at construction, and exits delivering nothing further at the first
wake that observes the flag set; every delivery targets the captured
monitored thread (so never the watchdog thread itself, which is a distinct
thread). -/
theorem C9_watchdog_signals (executorId monitoredTid sigNum : ℕ)
    (hwmF : ℕ → ℕ → Option ℕ) (det : StallDetector) (s0 : DetectorState)
    (hnew : (stallDetectorNew true executorId monitoredTid sigNum hwmF).1 =
      IOResult.ok (det, s0)) (flags : List Bool) :
    watchdogLoop det.tid det.sig flags =
        List.replicate (flags.takeWhile (fun b => !b)).length
          (monitoredTid, sigNum) ∧
      ∀ p ∈ watchdogLoop det.tid det.sig flags,
        p.1 = monitoredTid ∧ p.2 = sigNum := by
  have hdet : det.tid = monitoredTid ∧ det.sig = sigNum := by
    rw [stallDetectorNew] at hnew
    simp only [if_pos] at hnew
    cases hnew
    exact ⟨rfl, rfl⟩
  obtain ⟨h1, h2⟩ := hdet
  rw [h1, h2, watchdogLoop_eq_replicate]
  refine ⟨rfl, ?_⟩
  intro p hp
  rw [List.eq_of_mem_replicate hp]
  exact ⟨rfl, rfl⟩

/-- Witness for C9: two wakes with the flag unset then one with it set
deliver exactly two signals to the monitored thread. -/
theorem C9_witness :
    watchdogLoop 1 10 [false, false, true] =
      List.replicate (([false, false, true].takeWhile (fun b => !b)).length)
        ((1 : ℕ), (10 : ℕ)) :=
  (C9_watchdog_signals 0 1 10 (fun _ _ => none)
      { id := 0, tid := 1, sig := 10, hwm := fun _ _ => none } initialState rfl
      [false, false, true]).1

/-- Claim C10, confirmed. After any guard destruction the intake channel is
empty — the drain consumes every frame whether or not a report is
dispatched — and the reports after destruction are either unchanged or
extended by exactly one report whose trace is exactly the frames that were
in the channel at destruction; hence frames drained by one quantum can
never appear in the report of a later quantum on the same watchdog. -/
theorem C10_channel_drained (disarmOk : Bool) (now : ℕ) (det : StallDetector)
    (g : StallDetectorGuard) (s : DetectorState) :
    (stallDetectorGuardDrop disarmOk now det g s).1.chan = [] ∧
      ((stallDetectorGuardDrop disarmOk now det g s).1.reports = s.reports ∨
        ∃ rep,
          (stallDetectorGuardDrop disarmOk now det g s).1.reports =
              s.reports ++ [rep] ∧
            rep.trace = s.chan) := by
  rw [stallDetectorGuardDrop, disarmTimer]
  cases hc : s.chan with
  | nil => simp
  | cons a l =>
    refine ⟨by simp, Or.inr ?_⟩
    refine ⟨{ executor := det.id, queueHandle := g.queueHandle,
              queueName := g.queueName, trace := a :: l, budget := g.threshold,
              overage := (now - g.start) - g.threshold }, by simp, rfl⟩

end StallModel
